import Mathlib

/-
  Formal model of src/show_school_data.c over the semantics of the json-c
  library functions it calls.

  Representation choice, following json-c: a json_object pointer is modeled
  as Option Json, where none is the NULL pointer.  json-c uses the NULL
  pointer both to represent the JSON null value (inside arrays and object
  fields) and to signal lookup failure, so array elements and object field
  values are Option Json as well.
-/

namespace ShowSchoolData

/-- JSON values as represented by json-c.  Array elements and object field
values are json_object pointers, hence Option Json, with none standing for the
NULL pointer that json-c uses for the JSON null value.  Numbers are modeled as
integers; no part of the program or of the verified properties involves
doubles. -/
inductive Json : Type where
  | bool : Bool → Json
  | int : Int → Json
  | str : String → Json
  | arr : List (Option Json) → Json
  | obj : List (String × Option Json) → Json

/-- The json_type enumeration of json-c (json_type_double omitted: unused). -/
inductive JType : Type where
  | null : JType
  | boolean : JType
  | int : JType
  | object : JType
  | array : JType
  | str : JType
deriving DecidableEq

/-- json_object_get_type.  The NULL pointer has type json_type_null. -/
def json_object_get_type : Option Json → JType
  | none => JType.null
  | some (Json.bool _) => JType.boolean
  | some (Json.int _) => JType.int
  | some (Json.str _) => JType.str
  | some (Json.arr _) => JType.array
  | some (Json.obj _) => JType.object

/-- json_object_object_get_ex: returns true (modeled some element) exactly
when the argument is an object that has the key; the element returned through
the out parameter may itself be the NULL pointer, when the stored value is
JSON null.  On the NULL pointer or a non-object argument it returns false
(modeled none). -/
def json_object_object_get_ex : Option Json → String → Option (Option Json)
  | some (Json.obj fields), key => List.lookup key fields
  | _, _ => none

/-- One hexadecimal digit, for control-character escapes. -/
def hex_digit (n : Nat) : String :=
  String.singleton (Nat.digitChar n)

/-- Escaping of one character inside a JSON string, as done by the json-c
printer (json_escape_str): quote, backslash, slash and the usual control
escapes, other control characters as a \u00XX sequence. -/
def escape_char (c : Char) : String :=
  if c = '\x22' then "\\\""
  else if c = '\x5c' then "\\\\"
  else if c = '/' then "\\/"
  else if c = '\x08' then "\\b"
  else if c = '\x0c' then "\\f"
  else if c = '\n' then "\\n"
  else if c = '\r' then "\\r"
  else if c = '\t' then "\\t"
  else if c.toNat < 32 then "\\u00" ++ hex_digit (c.toNat / 16) ++ hex_digit (c.toNat % 16)
  else String.singleton c

/-- Escaping of a whole JSON string. -/
def escape_string (s : String) : String :=
  s.data.foldl (fun acc c => acc ++ escape_char c) ""

mutual

/-- json_object_to_json_string with its default flags (JSON_C_TO_STRING_SPACED),
on a json_object pointer: the NULL pointer prints as null. -/
def json_object_to_json_string : Option Json → String
  | none => "null"
  | some j => json_value_to_string j

/-- Serialization of one non-NULL JSON value in the spaced json-c format:
arrays as [ e1, e2 ] and objects with a space after each opening brace,
comma and colon. -/
def json_value_to_string : Json → String
  | Json.bool true => "true"
  | Json.bool false => "false"
  | Json.int n => toString n
  | Json.str s => "\"" ++ escape_string s ++ "\""
  | Json.arr xs => "[" ++ json_array_members xs ++ " ]"
  | Json.obj fields => "\x7b" ++ json_object_members fields ++ " \x7d"

/-- Comma-separated array members, each preceded by a space. -/
def json_array_members : List (Option Json) → String
  | [] => ""
  | [x] => " " ++ json_object_to_json_string x
  | x :: xs => " " ++ json_object_to_json_string x ++ "," ++ json_array_members xs

/-- Comma-separated object members, each preceded by a space. -/
def json_object_members : List (String × Option Json) → String
  | [] => ""
  | [(k, v)] => " \"" ++ escape_string k ++ "\": " ++ json_object_to_json_string v
  | (k, v) :: fields =>
      " \"" ++ escape_string k ++ "\": " ++ json_object_to_json_string v ++ ","
        ++ json_object_members fields

end

/-- json_object_get_string: NULL gives NULL; a string object gives its
contents; every other value gives its JSON serialization (json-c falls back
to json_object_to_json_string for non-string types — it does NOT return
NULL on a type mismatch). -/
def json_object_get_string : Option Json → Option String
  | none => none
  | some (Json.str s) => some s
  | some j => some (json_value_to_string j)

/-- get_string_element from show_school_data.c: fetch the child with
json_object_object_get_ex, check its type is json_type_string, then return
json_object_get_string of it; NULL on a missing child or a non-string child. -/
def get_string_element (obj : Option Json) (name : String) : Option String :=
  match json_object_object_get_ex obj name with
  | none => none
  | some element =>
      if json_object_get_type element = JType.str then
        json_object_get_string element
      else
        none

/-- Outcome of one print_professor call: the text it wrote to stdout, and
whether it ran into the json-c type assertion of json_object_array_length
(courses_taught present but not an array), which kills the process (an
assertion failure in a checked build, undefined behavior otherwise). -/
inductive POut : Type where
  | ok : String → POut
  | abort : String → POut
deriving DecidableEq

/-- The stdout text carried by a POut, in both outcomes. -/
def POut.out : POut → String
  | POut.ok s => s
  | POut.abort s => s

/-- The Email fragment of print_professor: one line when get_string_element
finds the email, empty otherwise. -/
def email_part (person : Option Json) : String :=
  match get_string_element person "email" with
  | some email => "        Email: " ++ email ++ "\n"
  | none => ""

/-- The Office fragment of print_professor: json_object_object_get_ex on
office, then get_string_element on building and room; one line exactly when
both succeed, empty otherwise. -/
def office_part (person : Option Json) : String :=
  match json_object_object_get_ex person "office" with
  | some office =>
      match get_string_element office "building", get_string_element office "room" with
      | some building, some room => "        Office: " ++ building ++ " " ++ room ++ "\n"
      | _, _ => ""
  | none => ""

/-- The course loop of print_professor.  The C code iterates the indices
0 .. n_courses-1 over json_object_array_get_idx, which visits exactly the list
elements in order, so the loop is modeled by direct recursion on the element
list.  A NULL element (a JSON null stored in the array) makes
json_object_array_get_idx return NULL and the C function return early,
cutting the rest of the list off.  For a non-NULL element the C code checks
json_object_get_string for NULL before printing; on a non-NULL argument that
call never returns NULL (the dead branch is kept to mirror the check). -/
def course_loop : List (Option Json) → String
  | [] => ""
  | course :: rest =>
      match course with
      | none => ""
      | some c =>
          (match json_object_get_string (some c) with
           | some course_name => "            " ++ course_name ++ "\n"
           | none => "") ++ course_loop rest

/-- print_professor from show_school_data.c.  No name: print nothing and
return.  Otherwise: name line, Email fragment, Office fragment, the
unconditional Teaches header, then the course loop — but only after
json_object_array_length(courses), which asserts json_type_array: when
courses_taught holds anything other than an array (including JSON null), the
process dies there, with everything already printed standing. -/
def print_professor (person : Option Json) : POut :=
  match get_string_element person "name" with
  | none => POut.ok ""
  | some name =>
      let header :=
        "    " ++ name ++ "\n" ++ email_part person ++ office_part person
          ++ "        Teaches:\n"
      match json_object_object_get_ex person "courses_taught" with
      | none => POut.ok header
      | some courses =>
          match courses with
          | some (Json.arr xs) => POut.ok (header ++ course_loop xs)
          | _ => POut.abort header

/-- Outcome of a whole run: stdout text plus how the process ended.
ok is exit(EXIT_SUCCESS); fail is the FAIL_ON_VAL path, exit(EXIT_FAILURE)
with the given stderr text; abort is a json-c array-type assertion failure
(non-zero abnormal termination). -/
inductive RunResult : Type where
  | ok : String → RunResult
  | fail : String → String → RunResult
  | abort : String → RunResult
deriving DecidableEq

/-- The stdout text carried by a RunResult. -/
def RunResult.stdout : RunResult → String
  | RunResult.ok s => s
  | RunResult.fail s _ => s
  | RunResult.abort s => s

/-- The stderr line produced by the FAIL_ON_VAL macro: it wraps its message in
"Error: %s\n".  The messages for School and Department themselves end in a
newline in the C source, so those two come out followed by a blank line. -/
def FAIL_ON_VAL_stderr (msg : String) : String :=
  "Error: " ++ msg ++ "\n"

/-- The faculty loop of main.  As with the course loop, the C iteration of
indices 0 .. n_faculty-1 over json_object_array_get_idx visits exactly the
list elements in order.  A NULL element (JSON null in the Faculty array) is
skipped by the professor != NULL check; otherwise print_professor runs and
its output is appended, an abort inside it killing the whole run. -/
def faculty_loop : List (Option Json) → String → RunResult
  | [], acc => RunResult.ok acc
  | professor :: rest, acc =>
      match professor with
      | none => faculty_loop rest acc
      | some p =>
          match print_professor (some p) with
          | POut.ok s => faculty_loop rest (acc ++ s)
          | POut.abort s => RunResult.abort (acc ++ s)

/-- main from show_school_data.c, from the point where the parsed document is
in hand (json_tokener_parse returns NULL — modeled none — on a parse
failure).  School then Department are read through get_string_element, each
failure hitting FAIL_ON_VAL before anything reaches stdout; then the header
line is printed; then, when Faculty is present, json_object_array_length is
called on it — asserting json_type_array, so a non-array Faculty value
(including JSON null) kills the process — and the faculty loop runs. -/
def main_with_data : Option Json → RunResult
  | none => RunResult.fail "" (FAIL_ON_VAL_stderr "Invalid JSON data")
  | some d =>
      let data : Option Json := some d
      match get_string_element data "School" with
      | none => RunResult.fail "" (FAIL_ON_VAL_stderr "Error reading element \x27School\x27\n")
      | some school =>
          match get_string_element data "Department" with
          | none =>
              RunResult.fail "" (FAIL_ON_VAL_stderr "Error reading element \x27Department\x27\n")
          | some department =>
              let header := school ++ ": " ++ department ++ "\n"
              match json_object_object_get_ex data "Faculty" with
              | none => RunResult.ok header
              | some faculty =>
                  match faculty with
                  | some (Json.arr xs) => faculty_loop xs header
                  | _ => RunResult.abort header

/-- The whole program, as a function of the result of get_file_contents on
compsci.json (none models any read failure) and of the library JSON parser
applied to those contents (json-c json_tokener_parse, returning NULL —
modeled none — on invalid input).  The parser is library code, so the run is
parameterized over it. -/
def program_run (file_contents : Option String) (json_tokener_parse : String → Option Json) :
    RunResult :=
  match file_contents with
  | none => RunResult.fail "" (FAIL_ON_VAL_stderr "Error reading compsci.json")
  | some contents => main_with_data (json_tokener_parse contents)

/-- Statement-side description of the single output line that the course loop
produces for one non-null element of courses_taught: a string element prints
its contents, any other element prints its json-c serialization. -/
def course_line (x : Option Json) : String :=
  "            "
    ++ (match x with
        | some (Json.str s) => s
        | x => (json_object_get_string x).getD "")
    ++ "\n"

/-- The course loop emits exactly course_line for one non-null element. -/
theorem course_loop_cons_some (c : Json) (rest : List (Option Json)) :
    course_loop (some c :: rest) = course_line (some c) ++ course_loop rest := by
  cases c <;> rfl

/-- A null element cuts the course list off: everything after it is dropped. -/
theorem course_loop_append_none (xs ys : List (Option Json))
    (h : xs.all Option.isSome = true) :
    course_loop (xs ++ none :: ys) = course_loop xs := by
  induction xs with
  | nil => rfl
  | cons x xs ih =>
      rw [List.all_cons, Bool.and_eq_true] at h
      cases x with
      | none => simp at h
      | some c =>
          rw [List.cons_append, course_loop_cons_some, course_loop_cons_some, ih h.2]

/-- On a null-free list the course loop prints one course_line per element,
in order. -/
theorem course_loop_eq_lines (xs : List (Option Json))
    (h : xs.all Option.isSome = true) :
    course_loop xs = (xs.map course_line).foldr (fun a b => a ++ b) "" := by
  induction xs with
  | nil => rfl
  | cons x xs ih =>
      rw [List.all_cons, Bool.and_eq_true] at h
      cases x with
      | none => simp at h
      | some c => rw [course_loop_cons_some, List.map_cons, List.foldr_cons, ih h.2]

/-- Whatever the faculty loop does, the text already in the accumulator is a
prefix of the stdout it ends up with. -/
theorem faculty_loop_stdout (xs : List (Option Json)) (acc : String) :
    ∃ t, (faculty_loop xs acc).stdout = acc ++ t := by
  induction xs generalizing acc with
  | nil => exact ⟨"", (String.append_empty acc).symm⟩
  | cons x xs ih =>
      cases x with
      | none => exact ih acc
      | some p =>
          cases hp : print_professor (some p) with
          | ok s =>
              obtain ⟨t, ht⟩ := ih (acc ++ s)
              refine ⟨s ++ t, ?_⟩
              rw [faculty_loop, hp] at *
              rw [ht, String.append_assoc]
          | abort s => exact ⟨s, by rw [faculty_loop, hp]; rfl⟩

/-- A faculty element that renders to nothing leaves the rest of the loop
unchanged: it can be deleted from the list. -/
theorem faculty_loop_skip (p : Json) (hp : print_professor (some p) = POut.ok "")
    (xs ys : List (Option Json)) (acc : String) :
    faculty_loop (xs ++ some p :: ys) acc = faculty_loop (xs ++ ys) acc := by
  induction xs generalizing acc with
  | nil =>
      rw [List.nil_append, List.nil_append, faculty_loop, hp]
      simp [String.append_empty]
  | cons x xs ih =>
      cases x with
      | none => rw [List.cons_append, List.cons_append, faculty_loop, faculty_loop, ih]
      | some q =>
          rw [List.cons_append, List.cons_append, faculty_loop, faculty_loop]
          cases print_professor (some q) with
          | ok s => exact ih (acc ++ s)
          | abort s => rfl

/-- With the name in hand, the output of print_professor is the name line,
the Email fragment, the Office fragment and the Teaches header, followed by
whatever the course handling produces. -/
theorem print_professor_out_decomp (person : Option Json) (nm : String)
    (h : get_string_element person "name" = some nm) :
    ∃ tail, (print_professor person).out
      = "    " ++ nm ++ "\n" ++ email_part person ++ office_part person
        ++ "        Teaches:\n" ++ tail := by
  unfold print_professor
  rw [h]
  cases hc : json_object_object_get_ex person "courses_taught" with
  | none => exact ⟨"", by simp [POut.out, String.append_empty]⟩
  | some courses =>
      cases courses with
      | none => exact ⟨"", by simp [POut.out, String.append_empty]⟩
      | some j =>
          cases j with
          | arr xs => exact ⟨course_loop xs, by simp [POut.out]⟩
          | bool b => exact ⟨"", by simp [POut.out, String.append_empty]⟩
          | int n => exact ⟨"", by simp [POut.out, String.append_empty]⟩
          | str s => exact ⟨"", by simp [POut.out, String.append_empty]⟩
          | obj fields => exact ⟨"", by simp [POut.out, String.append_empty]⟩

/-- Claim C1, counterexample: the claim says non-string elements of
courses_taught produce no output line, but for the professor
with courses_taught ["CS1", 42] the code prints an indented line for the
number as well — json_object_get_string serializes non-string values instead
of returning NULL — so the output is not the strings-only text the claim
predicts. -/
theorem print_professor_prints_nonstring_course :
    print_professor (some (Json.obj [("name", some (Json.str "N")),
        ("courses_taught", some (Json.arr [some (Json.str "CS1"), some (Json.int 42)]))]))
      = POut.ok "    N\n        Teaches:\n            CS1\n            42\n"
    ∧ POut.ok "    N\n        Teaches:\n            CS1\n            42\n"
      ≠ POut.ok "    N\n        Teaches:\n            CS1\n" := by
  exact ⟨by decide, by decide⟩

/-- Claim C1, amended: for a professor whose name is present and whose
courses_taught is an array with no null element, every element produces
exactly one indented line, in array order: a string element prints its
contents, a non-string element prints its json-c serialization (course_line). -/
theorem print_professor_course_lines (person : Option Json) (nm : String)
    (xs : List (Option Json))
    (hname : get_string_element person "name" = some nm)
    (hc : json_object_object_get_ex person "courses_taught" = some (some (Json.arr xs)))
    (hnn : xs.all Option.isSome = true) :
    print_professor person
      = POut.ok ("    " ++ nm ++ "\n" ++ email_part person ++ office_part person
          ++ "        Teaches:\n" ++ (xs.map course_line).foldr (fun a b => a ++ b) "") := by
  have h1 : print_professor person
      = POut.ok ("    " ++ nm ++ "\n" ++ email_part person ++ office_part person
          ++ "        Teaches:\n" ++ course_loop xs) := by
    unfold print_professor
    rw [hname, hc]
  rw [h1, course_loop_eq_lines xs hnn]

/-- Witness for the amended C1 theorem at a concrete professor with a string
course and a boolean course. -/
theorem print_professor_course_lines_witness :
    print_professor (some (Json.obj [("name", some (Json.str "W")),
        ("courses_taught", some (Json.arr [some (Json.str "A"), some (Json.bool true)]))]))
      = POut.ok ("    " ++ "W" ++ "\n"
          ++ email_part (some (Json.obj [("name", some (Json.str "W")),
              ("courses_taught", some (Json.arr [some (Json.str "A"), some (Json.bool true)]))]))
          ++ office_part (some (Json.obj [("name", some (Json.str "W")),
              ("courses_taught", some (Json.arr [some (Json.str "A"), some (Json.bool true)]))]))
          ++ "        Teaches:\n"
          ++ (([some (Json.str "A"), some (Json.bool true)]).map course_line).foldr
              (fun a b => a ++ b) "") :=
  print_professor_course_lines
    (some (Json.obj [("name", some (Json.str "W")),
        ("courses_taught", some (Json.arr [some (Json.str "A"), some (Json.bool true)]))]))
    "W" [some (Json.str "A"), some (Json.bool true)] (by decide) rfl (by decide)

/-- Claim C2, counterexample: for the document with no fields at all the
Department field is missing, yet the program reports School — the School
check runs first — and the stderr text also carries the Error: prefix of the
FAIL_ON_VAL macro plus a trailing blank line, not the bare message the claim
states. -/
theorem department_error_not_reported_when_school_missing :
    main_with_data (some (Json.obj []))
      = RunResult.fail "" "Error: Error reading element \x27School\x27\n\n"
    ∧ ("Error: Error reading element \x27School\x27\n\n"
        ≠ "Error: Error reading element \x27Department\x27\n\n")
    ∧ ("Error: Error reading element \x27School\x27\n\n"
        ≠ "Error reading element \x27Department\x27") := by
  exact ⟨by decide, by decide, by decide⟩

/-- Claim C2, amended: for every document whose School field is present as a
string and whose Department field is missing or not a string, the run stops
with a non-zero status, writes nothing to stdout, and writes to stderr
exactly the line Error: Error reading element 'Department' followed by a
blank line (the macro wraps the message, whose literal already ends in a
newline). -/
theorem department_missing_fails (data : Option Json) (s : String)
    (hs : get_string_element data "School" = some s)
    (hd : get_string_element data "Department" = none) :
    main_with_data data
      = RunResult.fail "" "Error: Error reading element \x27Department\x27\n\n" := by
  cases data with
  | none => simp [get_string_element, json_object_object_get_ex] at hs
  | some d =>
      simp only [main_with_data]
      rw [hs, hd]
      rfl

/-- Witness for the amended C2 theorem at a document carrying only School. -/
theorem department_missing_fails_witness :
    main_with_data (some (Json.obj [("School", some (Json.str "S"))]))
      = RunResult.fail "" "Error: Error reading element \x27Department\x27\n\n" :=
  department_missing_fails (some (Json.obj [("School", some (Json.str "S"))])) "S"
    (by decide) (by decide)

/-- Claim C3: whenever School and Department are read successfully, stdout
starts with the header line School: Department, and for the minimal document
with an empty Faculty array the whole run is exactly that single line with a
success exit. -/
theorem header_line_first (data : Option Json) (s d : String)
    (hs : get_string_element data "School" = some s)
    (hd : get_string_element data "Department" = some d) :
    (∃ rest, (main_with_data data).stdout = s ++ ": " ++ d ++ "\n" ++ rest)
    ∧ main_with_data (some (Json.obj [("School", some (Json.str "S")),
        ("Department", some (Json.str "D")), ("Faculty", some (Json.arr []))]))
      = RunResult.ok "S: D\n" := by
  refine ⟨?_, by decide⟩
  cases data with
  | none => simp [get_string_element, json_object_object_get_ex] at hs
  | some dd =>
      simp only [main_with_data]
      rw [hs, hd]
      cases hf : json_object_object_get_ex (some dd) "Faculty" with
      | none => exact ⟨"", (String.append_empty _).symm⟩
      | some faculty =>
          cases faculty with
          | none => exact ⟨"", (String.append_empty _).symm⟩
          | some j =>
              cases j with
              | arr xs =>
                  obtain ⟨t, ht⟩ := faculty_loop_stdout xs (s ++ ": " ++ d ++ "\n")
                  exact ⟨t, ht⟩
              | bool b => exact ⟨"", (String.append_empty _).symm⟩
              | int n => exact ⟨"", (String.append_empty _).symm⟩
              | str s2 => exact ⟨"", (String.append_empty _).symm⟩
              | obj fields => exact ⟨"", (String.append_empty _).symm⟩

/-- Witness for the C3 theorem at the minimal document. -/
theorem header_line_first_witness :
    (∃ rest, (main_with_data (some (Json.obj [("School", some (Json.str "S")),
        ("Department", some (Json.str "D")), ("Faculty", some (Json.arr []))]))).stdout
      = "S" ++ ": " ++ "D" ++ "\n" ++ rest)
    ∧ main_with_data (some (Json.obj [("School", some (Json.str "S")),
        ("Department", some (Json.str "D")), ("Faculty", some (Json.arr []))]))
      = RunResult.ok "S: D\n" :=
  header_line_first (some (Json.obj [("School", some (Json.str "S")),
      ("Department", some (Json.str "D")), ("Faculty", some (Json.arr []))]))
    "S" "D" (by decide) (by decide)

/-- Claim C4: get_string_element returns the string exactly when the key is
present in the object and the stored value is a JSON string; a missing key, a
null value or a value of any other type all give NULL, and the function has
no error outcome at all.  The statement characterizes the result fully over
the lookup result. -/
theorem get_string_element_spec (fields : List (String × Option Json)) (key : String) :
    get_string_element (some (Json.obj fields)) key
      = match List.lookup key fields with
        | some (some (Json.str s)) => some s
        | _ => none := by
  have hx : json_object_object_get_ex (some (Json.obj fields)) key = List.lookup key fields :=
    rfl
  unfold get_string_element
  rw [hx]
  cases h : List.lookup key fields with
  | none => rfl
  | some v =>
      cases v with
      | none => rfl
      | some j => cases j <;> rfl

/-- Claim C5, counterexample: a professor record with no name but with an
office holding both building and room as strings renders nothing at all, so
no Office line is printed even though both sub-fields are present — the
claimed equivalence only holds once the name check has passed. -/
theorem office_line_requires_name :
    print_professor (some (Json.obj [("office", some (Json.obj
        [("building", some (Json.str "B")), ("room", some (Json.str "R"))]))]))
      = POut.ok ""
    ∧ get_string_element (some (Json.obj [("building", some (Json.str "B")),
        ("room", some (Json.str "R"))])) "building" = some "B"
    ∧ get_string_element (some (Json.obj [("building", some (Json.str "B")),
        ("room", some (Json.str "R"))])) "room" = some "R" := by
  exact ⟨by decide, by decide, by decide⟩

/-- Claim C5, amended: for a professor whose name is present as a string and
whose office field is present, the Office fragment of the output is the
single Office line when both building and room are read as strings, and is
empty when either of them is missing or not a string; the fragment sits
between the Email fragment and the Teaches header in the record output. -/
theorem office_line_iff_building_and_room (person office : Option Json) (nm : String)
    (hname : get_string_element person "name" = some nm)
    (hoff : json_object_object_get_ex person "office" = some office) :
    (∀ b r, get_string_element office "building" = some b →
        get_string_element office "room" = some r →
        office_part person = "        Office: " ++ b ++ " " ++ r ++ "\n")
    ∧ ((get_string_element office "building" = none ∨ get_string_element office "room" = none) →
        office_part person = "")
    ∧ ∃ tail, (print_professor person).out
        = "    " ++ nm ++ "\n" ++ email_part person ++ office_part person
          ++ "        Teaches:\n" ++ tail := by
  have h0 : office_part person
      = match get_string_element office "building", get_string_element office "room" with
        | some building, some room => "        Office: " ++ building ++ " " ++ room ++ "\n"
        | _, _ => "" := by
    unfold office_part
    rw [hoff]
  refine ⟨?_, ?_, print_professor_out_decomp person nm hname⟩
  · intro b r hb hr
    rw [h0, hb, hr]
  · intro h
    rw [h0]
    cases hb : get_string_element office "building" with
    | none =>
        cases hr : get_string_element office "room" <;> rfl
    | some b =>
        cases hr : get_string_element office "room" with
        | none => rfl
        | some r =>
            rcases h with h | h
            · rw [hb] at h; exact absurd h (by simp)
            · rw [hr] at h; exact absurd h (by simp)

/-- Witness for the amended C5 theorem: a professor with name, building and
room present gets exactly the expected Office fragment. -/
theorem office_line_iff_building_and_room_witness :
    office_part (some (Json.obj [("name", some (Json.str "N")),
        ("office", some (Json.obj [("building", some (Json.str "B")),
          ("room", some (Json.str "R"))]))]))
      = "        Office: " ++ "B" ++ " " ++ "R" ++ "\n" :=
  (office_line_iff_building_and_room
      (some (Json.obj [("name", some (Json.str "N")),
        ("office", some (Json.obj [("building", some (Json.str "B")),
          ("room", some (Json.str "R"))]))]))
      (some (Json.obj [("building", some (Json.str "B")), ("room", some (Json.str "R"))]))
      "N" (by decide) rfl).1 "B" "R" (by decide) (by decide)

/-- Claim C6: a faculty element whose name is absent or not a string renders
to nothing, and deleting it from the Faculty list leaves the output of the
whole faculty loop unchanged, whatever comes before or after it. -/
theorem nameless_professor_skipped (p : Json)
    (h : get_string_element (some p) "name" = none)
    (xs ys : List (Option Json)) (acc : String) :
    print_professor (some p) = POut.ok ""
    ∧ faculty_loop (xs ++ some p :: ys) acc = faculty_loop (xs ++ ys) acc := by
  have hp : print_professor (some p) = POut.ok "" := by
    unfold print_professor
    rw [h]
  exact ⟨hp, faculty_loop_skip p hp xs ys acc⟩

/-- Witness for the C6 theorem: a record with only an email is skipped and
the following professor is rendered exactly as if the record were absent. -/
theorem nameless_professor_skipped_witness :
    print_professor (some (Json.obj [("email", some (Json.str "e"))])) = POut.ok ""
    ∧ faculty_loop [some (Json.obj [("email", some (Json.str "e"))]),
          some (Json.obj [("name", some (Json.str "A"))])] ""
      = faculty_loop [some (Json.obj [("name", some (Json.str "A"))])] "" :=
  nameless_professor_skipped (Json.obj [("email", some (Json.str "e"))]) (by decide)
    [] [some (Json.obj [("name", some (Json.str "A"))])] ""

/-- Claim C7: once the name is read, the record output always contains the
Teaches header, after the name line and the Email and Office fragments; and
a professor with a name but none of the email, office and courses_taught
fields renders exactly the name line followed by the Teaches line. -/
theorem teaches_header_always_printed (person : Option Json) (nm : String)
    (hname : get_string_element person "name" = some nm) :
    (∃ tail, (print_professor person).out
        = "    " ++ nm ++ "\n" ++ email_part person ++ office_part person
          ++ "        Teaches:\n" ++ tail)
    ∧ (json_object_object_get_ex person "email" = none →
        json_object_object_get_ex person "office" = none →
        json_object_object_get_ex person "courses_taught" = none →
        print_professor person = POut.ok ("    " ++ nm ++ "\n" ++ "        Teaches:\n")) := by
  refine ⟨print_professor_out_decomp person nm hname, ?_⟩
  intro he ho hc
  have hep : email_part person = "" := by
    unfold email_part get_string_element
    rw [he]
  have hop : office_part person = "" := by
    unfold office_part
    rw [ho]
  unfold print_professor
  rw [hname, hc, hep, hop]
  simp [String.append_empty]

/-- Witness for the C7 theorem at a professor carrying only a name. -/
theorem teaches_header_always_printed_witness :
    print_professor (some (Json.obj [("name", some (Json.str "N"))]))
      = POut.ok ("    " ++ "N" ++ "\n" ++ "        Teaches:\n") :=
  (teaches_header_always_printed (some (Json.obj [("name", some (Json.str "N"))])) "N"
      (by decide)).2 rfl rfl rfl

/-- Claim C8, counterexample: a document whose Faculty field holds a string
is not treated as if Faculty were absent — json_object_array_length is called
on the value with no type check, its json_type_array assertion fails and the
process dies after the header line, while the same document without the
Faculty field completes successfully. -/
theorem nonarray_faculty_aborts :
    main_with_data (some (Json.obj [("School", some (Json.str "S")),
        ("Department", some (Json.str "D")), ("Faculty", some (Json.str "oops"))]))
      = RunResult.abort "S: D\n"
    ∧ main_with_data (some (Json.obj [("School", some (Json.str "S")),
        ("Department", some (Json.str "D"))]))
      = RunResult.ok "S: D\n"
    ∧ RunResult.abort "S: D\n" ≠ RunResult.ok "S: D\n" := by
  exact ⟨by decide, by decide, by decide⟩

/-- Claim C8, amended: below the top level, a type mismatch in a field that is
read through get_string_element (name, email, building, room — and School and
Department themselves) or in the office object is silently treated as
absence; but a present Faculty or courses_taught value that is not an array
reaches json_object_array_length, whose json_type_array assertion kills the
process (abort), with the output printed so far standing. -/
theorem type_mismatch_policy :
    (∀ (fields : List (String × Option Json)) (key : String) (v : Option Json),
        List.lookup key fields = some v → json_object_get_type v ≠ JType.str →
        get_string_element (some (Json.obj fields)) key = none)
    ∧ (∀ person office : Option Json,
        json_object_object_get_ex person "office" = some office →
        json_object_get_type office ≠ JType.object →
        office_part person = "")
    ∧ (∀ (data fac : Option Json) (s d : String),
        get_string_element data "School" = some s →
        get_string_element data "Department" = some d →
        json_object_object_get_ex data "Faculty" = some fac →
        json_object_get_type fac ≠ JType.array →
        main_with_data data = RunResult.abort (s ++ ": " ++ d ++ "\n"))
    ∧ (∀ (person courses : Option Json) (nm : String),
        get_string_element person "name" = some nm →
        json_object_object_get_ex person "courses_taught" = some courses →
        json_object_get_type courses ≠ JType.array →
        print_professor person
          = POut.abort ("    " ++ nm ++ "\n" ++ email_part person ++ office_part person
              ++ "        Teaches:\n")) := by
  refine ⟨?_, ?_, ?_, ?_⟩
  · intro fields key v hv ht
    have hx : json_object_object_get_ex (some (Json.obj fields)) key = List.lookup key fields :=
      rfl
    unfold get_string_element
    rw [hx, hv]
    show (if json_object_get_type v = JType.str then json_object_get_string v else none) = none
    rw [if_neg ht]
  · intro person office hoff ht
    have hb : get_string_element office "building" = none := by
      cases office with
      | none => rfl
      | some j => cases j <;> first | rfl | exact absurd rfl ht
    have hr : get_string_element office "room" = none := by
      cases office with
      | none => rfl
      | some j => cases j <;> first | rfl | exact absurd rfl ht
    have h0 : office_part person
        = match get_string_element office "building", get_string_element office "room" with
          | some building, some room => "        Office: " ++ building ++ " " ++ room ++ "\n"
          | _, _ => "" := by
      unfold office_part
      rw [hoff]
    rw [h0, hb, hr]
  · intro data fac s d hs hd hf ht
    cases data with
    | none => simp [get_string_element, json_object_object_get_ex] at hs
    | some dd =>
        simp only [main_with_data]
        rw [hs, hd, hf]
        cases fac with
        | none => rfl
        | some j => cases j <;> first | rfl | exact absurd rfl ht
  · intro person courses nm hname hc ht
    unfold print_professor
    rw [hname, hc]
    cases courses with
    | none => rfl
    | some j => cases j <;> first | rfl | exact absurd rfl ht

/-- Witness for the amended C8 theorem: a wrong-typed string field reads as
absent, a string-valued office prints nothing, and a string-valued Faculty
aborts the run after the header. -/
theorem type_mismatch_policy_witness :
    get_string_element (some (Json.obj [("email", some (Json.int 7))])) "email" = none
    ∧ office_part (some (Json.obj [("name", some (Json.str "N")),
        ("office", some (Json.str "HQ"))])) = ""
    ∧ main_with_data (some (Json.obj [("School", some (Json.str "S")),
        ("Department", some (Json.str "D")), ("Faculty", some (Json.str "oops2"))]))
      = RunResult.abort ("S" ++ ": " ++ "D" ++ "\n") :=
  ⟨type_mismatch_policy.1 [("email", some (Json.int 7))] "email" (some (Json.int 7))
      rfl (by decide),
   type_mismatch_policy.2.1 (some (Json.obj [("name", some (Json.str "N")),
        ("office", some (Json.str "HQ"))])) (some (Json.str "HQ")) rfl (by decide),
   type_mismatch_policy.2.2.1 (some (Json.obj [("School", some (Json.str "S")),
        ("Department", some (Json.str "D")), ("Faculty", some (Json.str "oops2"))]))
      (some (Json.str "oops2")) "S" "D" (by decide) (by decide) rfl (by decide)⟩

/-- Claim C9: when the course loop hits a null element — the one case where
json_object_array_get_idx yields no value at an index below the length — the
function returns at once: the courses after it are discarded, no error is
reported (the record still ends in a normal POut.ok), and the name line, the
fragments, the Teaches header and the courses before the null element all
stand. -/
theorem null_course_stops_course_list (person : Option Json) (nm : String)
    (xs ys : List (Option Json))
    (hname : get_string_element person "name" = some nm)
    (hc : json_object_object_get_ex person "courses_taught"
        = some (some (Json.arr (xs ++ none :: ys))))
    (hnn : xs.all Option.isSome = true) :
    print_professor person
      = POut.ok ("    " ++ nm ++ "\n" ++ email_part person ++ office_part person
          ++ "        Teaches:\n" ++ course_loop xs) := by
  have h1 : print_professor person
      = POut.ok ("    " ++ nm ++ "\n" ++ email_part person ++ office_part person
          ++ "        Teaches:\n" ++ course_loop (xs ++ none :: ys)) := by
    unfold print_professor
    rw [hname, hc]
  rw [h1, course_loop_append_none xs ys hnn]

/-- Witness for the C9 theorem: with courses ["A", null, "B"] only the course
line for A is printed and the record still renders normally. -/
theorem null_course_stops_course_list_witness :
    print_professor (some (Json.obj [("name", some (Json.str "N")),
        ("courses_taught", some (Json.arr
          [some (Json.str "A"), none, some (Json.str "B")]))]))
      = POut.ok ("    " ++ "N" ++ "\n"
          ++ email_part (some (Json.obj [("name", some (Json.str "N")),
              ("courses_taught", some (Json.arr
                [some (Json.str "A"), none, some (Json.str "B")]))]))
          ++ office_part (some (Json.obj [("name", some (Json.str "N")),
              ("courses_taught", some (Json.arr
                [some (Json.str "A"), none, some (Json.str "B")]))]))
          ++ "        Teaches:\n" ++ course_loop [some (Json.str "A")]) :=
  null_course_stops_course_list
    (some (Json.obj [("name", some (Json.str "N")),
        ("courses_taught", some (Json.arr
          [some (Json.str "A"), none, some (Json.str "B")]))]))
    "N" [some (Json.str "A")] [some (Json.str "B")] (by decide) rfl (by decide)

/-- Claim C10: the run is a pure function of the bytes read from compsci.json
(and of the deterministic library parse of them): two runs over equal file
contents give equal stdout, stderr and exit behavior. -/
theorem program_run_deterministic (fc1 fc2 : Option String)
    (parse : String → Option Json) (h : fc1 = fc2) :
    program_run fc1 parse = program_run fc2 parse := by
  rw [h]

/-- Witness for the C10 theorem at concrete file contents. -/
theorem program_run_deterministic_witness :
    program_run (some "notjson") (fun _ => none)
      = program_run (some "notjson") (fun _ => none) :=
  program_run_deterministic (some "notjson") (some "notjson") (fun _ => none) rfl

end ShowSchoolData
